import Mathlib

/-!
Shallow embedding of `src/video_downloader.py` (Social Media Video Downloader).

The program is an interactive CLI: a static platform catalog
(`Platform.get_all`), substring-based URL platform detection
(`Platform.detect_platform`), a download orchestrator
(`VideoDownloader.download_video`) around an external extractor with a
probe / confirm / fetch sequence and a session history, plus a menu loop
(`VideoDownloader.run`).

The external extractor (`yt_dlp`) and terminal toolkit (`rich`) are black-box
collaborators: one `download_video` call's interaction with them is modelled
by a `DLEnv` record giving the outcome of the metadata probe, the user's
confirmation answer, the outcome of the media fetch, and the resolved
filename.  Console output is modelled as an ordered list of events.
-/

/-- Checks whether `pat` occurs at the head of `s` (character-wise equality).
Building block for Python's substring operator `in`. -/
def startsWithChars : List Char → List Char → Bool
  | [], _ => true
  | _ :: _, [] => false
  | a :: as, b :: bs => a == b && startsWithChars as bs

/-- Checks whether `pat` occurs contiguously anywhere in `s`:
Python's `pat in s` on strings, on the character-list level. -/
def hasSubChars (pat : List Char) : List Char → Bool
  | [] => startsWithChars pat []
  | c :: t => startsWithChars pat (c :: t) || hasSubChars pat t

/-- Python's substring test `pat in s`. -/
def strContains (s pat : String) : Bool :=
  hasSubChars pat.data s.data

/-- Python's `str.lower()` (the code only applies it to ASCII URLs, where
`Char.toLower` agrees with Python's case mapping). -/
def lowerStr (s : String) : String :=
  String.mk (s.data.map Char.toLower)

/-- Python's `str.strip()` with no argument: removes whitespace from both ends
(the code only strips URLs, where ASCII whitespace is what occurs). -/
def stripStr (s : String) : String :=
  String.mk
    (((s.data.dropWhile Char.isWhitespace).reverse.dropWhile
        Char.isWhitespace).reverse)

/-- `PlatformConfig` dataclass: configuration for each social media platform.
`format_preference` defaults to `'best'` as in the dataclass. -/
structure PlatformConfig where
  name : String
  icon : String
  examples : List String
  domains : List String
  format_preference : String := "best"
deriving DecidableEq

/-- `Platform.YOUTUBE` class attribute. -/
def Platform.YOUTUBE : PlatformConfig :=
  { name := "YouTube"
    icon := "🎬"
    domains := ["youtube.com", "youtu.be"]
    examples :=
      ["https://www.youtube.com/watch?v=dQw4w9WgXcQ",
       "https://youtu.be/dQw4w9WgXcQ",
       "https://www.youtube.com/shorts/xxxxxxxxxxx"]
    format_preference := "bestvideo[ext=mp4]+bestaudio[ext=m4a]/best[ext=mp4]/best" }

/-- `Platform.INSTAGRAM` class attribute. -/
def Platform.INSTAGRAM : PlatformConfig :=
  { name := "Instagram"
    icon := "📸"
    domains := ["instagram.com"]
    examples :=
      ["https://www.instagram.com/reel/CxxxxxXXXXX/",
       "https://www.instagram.com/p/CxxxxxXXXXX/",
       "https://www.instagram.com/tv/CxxxxxXXXXX/"] }

/-- `Platform.FACEBOOK` class attribute. -/
def Platform.FACEBOOK : PlatformConfig :=
  { name := "Facebook"
    icon := "👥"
    domains := ["facebook.com", "fb.watch"]
    examples :=
      ["https://www.facebook.com/watch?v=1234567890",
       "https://fb.watch/xxxxxxxxxxx/",
       "https://www.facebook.com/username/videos/1234567890"] }

/-- `Platform.TWITTER` class attribute. -/
def Platform.TWITTER : PlatformConfig :=
  { name := "Twitter/X"
    icon := "🐦"
    domains := ["twitter.com", "x.com"]
    examples :=
      ["https://twitter.com/username/status/1234567890",
       "https://x.com/username/status/1234567890"] }

/-- `Platform.PINTEREST` class attribute. -/
def Platform.PINTEREST : PlatformConfig :=
  { name := "Pinterest"
    icon := "📌"
    domains := ["pinterest.com"]
    examples := ["https://www.pinterest.com/pin/1234567890/"] }

/-- `Platform.get_all()`: the ordered key → descriptor catalog (Python dicts
preserve insertion order). -/
def Platform.get_all : List (String × PlatformConfig) :=
  [("1", Platform.YOUTUBE),
   ("2", Platform.INSTAGRAM),
   ("3", Platform.FACEBOOK),
   ("4", Platform.TWITTER),
   ("5", Platform.PINTEREST)]

/-- `cls.get_all().values()` in catalog insertion order. -/
def catalogDescriptors : List PlatformConfig :=
  Platform.get_all.map Prod.snd

/-- The per-descriptor test inside `detect_platform`:
`any(domain in url.lower() for domain in platform.domains)`. -/
def platformMatches (p : PlatformConfig) (url : String) : Bool :=
  p.domains.any fun d => strContains (lowerStr url) d

/-- `Platform.detect_platform(url)`: first catalog descriptor (in insertion
order) one of whose domains occurs in the lowercased URL, else `None`. -/
def Platform.detect_platform (url : String) : Option PlatformConfig :=
  catalogDescriptors.find? fun p => platformMatches p url

/-- `self.platforms[choice]` dictionary lookup on the catalog. -/
def platformFor (key : String) : Option PlatformConfig :=
  (Platform.get_all.find? fun kv => kv.1 == key).map Prod.snd

/-- Duration row of `UIManager.show_video_info`:
`minutes, seconds = divmod(int(duration), 60)` and
`f"{minutes}m {seconds}s" if duration else "N/A"`, where the duration
defaults to `0` when absent (`info.get('duration', 0)`). -/
def durationStr (duration? : Option Nat) : String :=
  let duration := duration?.getD 0
  if duration == 0 then "N/A"
  else toString (duration / 60) ++ "m " ++ toString (duration % 60) ++ "s"

/-- Walks the decimal digits in reverse order, inserting a comma after every
third digit; `k` counts the digits already emitted. -/
def commaRev : List Char → Nat → List Char
  | [], _ => []
  | c :: cs, k =>
    if k != 0 && k % 3 == 0 then ',' :: c :: commaRev cs (k + 1)
    else c :: commaRev cs (k + 1)

/-- Python's thousands-separator format `f"{views:,}"` on a natural number:
a comma every three digits, counted from the right. -/
def commaSep (n : Nat) : String :=
  String.mk (commaRev (toString n).data.reverse 0).reverse

/-- Views row of `show_video_info`: `info.get('view_count', 'N/A')`,
formatted with thousands separators when it is an integer. -/
def viewsStr (views? : Option Nat) : String :=
  match views? with
  | some v => commaSep v
  | none => "N/A"

/-- Left-pads to two digits (the fractional part of a `.2f` rendering). -/
def pad2 (n : Nat) : String :=
  if n < 10 then "0" ++ toString n else toString n

/-- Rounds the exact rational `num / den` to the nearest integer with ties to
even, as IEEE-correct float formatting does. -/
def roundHalfEven (num den : Nat) : Nat :=
  let q := num / den
  let r := num % den
  if 2 * r < den then q
  else if den < 2 * r then q + 1
  else if q % 2 == 0 then q else q + 1

/-- File-size rendering of `show_video_info`:
`filesize_mb = filesize / (1024 * 1024)` then `f"{filesize_mb:.2f} MB"`.
The float quotient is exact for sizes below `2^53` bytes, where CPython's
`.2f` is the correctly rounded (half-to-even) two-decimal rendering of the
exact rational `filesize / 2^20`, which this computes in integers. -/
def formatSizeMB (filesize : Nat) : String :=
  let hundredths := roundHalfEven (filesize * 100) (1024 * 1024)
  toString (hundredths / 100) ++ "." ++ pad2 (hundredths % 100) ++ " MB"

/-- File-size row of `show_video_info`:
`info.get('filesize', info.get('filesize_approx', 'N/A'))`, formatted in MB
when it is an integer. -/
def filesizeStr (filesize filesize_approx : Option Nat) : String :=
  match filesize with
  | some n => formatSizeMB n
  | none =>
    match filesize_approx with
    | some n => formatSizeMB n
    | none => "N/A"

/-- The fields of the extractor's `info` dict that the program reads.  All are
optional: Python's `dict.get` supplies the defaults at each use site. -/
structure Metadata where
  title : Option String
  uploader : Option String
  duration : Option Nat
  view_count : Option Nat
  filesize : Option Nat
  filesize_approx : Option Nat
  upload_date : Option String
deriving DecidableEq

/-- The (property, value) rows of the `UIManager.show_video_info` table, in
display order. -/
def show_video_info_rows (info : Metadata) : List (String × String) :=
  [("📝 Title", info.title.getD "N/A"),
   ("👤 Uploader", info.uploader.getD "N/A"),
   ("⏱️  Duration", durationStr info.duration),
   ("👁️  Views", viewsStr info.view_count),
   ("💾 File Size", filesizeStr info.filesize info.filesize_approx),
   ("📅 Upload Date", info.upload_date.getD "N/A")]

/-- Outcome of a call into the external extractor: normal return or a raised
exception carrying its message string. -/
inductive ExtResult (α : Type) where
  | ok (value : α)
  | err (message : String)
deriving DecidableEq

/-- The black-box collaborators' behaviour during one `download_video(url,
platform)` call: the result of the metadata probe
(`ydl.extract_info(url, download=False)`), the user's answer to the
`Confirm.ask("Proceed with download?")` prompt, the result of the media fetch
(`ydl.download([url])`), and the filename `ydl.prepare_filename(info)`
resolves. -/
structure DLEnv where
  probe : ExtResult Metadata
  confirm : Bool
  fetch : ExtResult Unit
  filename : String
deriving DecidableEq

/-- Console displays issued by `download_video`: the `show_video_info` table,
the "Download cancelled by user" notice, the `show_success_message` panel and
the `show_error_message` panel. -/
inductive UIEvent where
  | videoInfo (info : Metadata)
  | cancelNotice
  | successMsg (filename : String)
  | errorMsg (message : String)
deriving DecidableEq

/-- The options dict built by `VideoDownloader.configure_ydl_options`
(the progress-hook list entry is the per-attempt reporter object, carried
implicitly). -/
structure YdlOptions where
  outtmpl : String
  format : String
  quiet : Bool
  no_warnings : Bool
  nocheckcertificate : Bool
  user_agent : String
deriving DecidableEq

/-- `VideoDownloader.configure_ydl_options(platform)`. -/
def configure_ydl_options (output_dir : String) (platform : PlatformConfig) :
    YdlOptions :=
  { outtmpl := output_dir ++ "/%(title)s.%(ext)s"
    format := platform.format_preference
    quiet := true
    no_warnings := true
    nocheckcertificate := true
    user_agent := "Mozilla/5.0 (Windows NT 10.0; Win64; x64) AppleWebKit/537.36" }

/-- Observable outcome of one `download_video` call: the returned boolean, the
updated `self.download_history`, the console displays in order, and whether
the media fetch (`ydl.download`) was invoked at all. -/
structure DVResult where
  success : Bool
  download_history : List String
  events : List UIEvent
  fetched : Bool
deriving DecidableEq

/-- `VideoDownloader.download_video(url, platform)`.  The whole body sits in a
`try`/`except Exception` whose handler calls `show_error_message` once and
returns `False`; in this total model an extractor exception therefore never
escapes, it selects the error branch.  On probe failure nothing else happens;
after a successful probe the metadata table is shown and the user is asked to
confirm; declining prints the cancellation notice and returns `False`; the
fetch then either raises (error panel, `False`) or succeeds, in which case the
success panel is shown, `info.get('title', 'Unknown')` is appended to
`self.download_history`, and `True` is returned. -/
def download_video (env : DLEnv) (hist : List String) : DVResult :=
  match env.probe with
  | .err e =>
    { success := false, download_history := hist
      events := [.errorMsg e], fetched := false }
  | .ok info =>
    if env.confirm = false then
      { success := false, download_history := hist
        events := [.videoInfo info, .cancelNotice], fetched := false }
    else
      match env.fetch with
      | .err e =>
        { success := false, download_history := hist
          events := [.videoInfo info, .errorMsg e], fetched := true }
      | .ok _ =>
        { success := true
          download_history := hist ++ [info.title.getD "Unknown"]
          events := [.videoInfo info, .successMsg env.filename]
          fetched := true }

/-- The menu prompt constrains its answer to `choices=['0','1','2','3','4','5']`. -/
inductive MenuChoice where
  | m0 | m1 | m2 | m3 | m4 | m5
deriving DecidableEq

/-- The selection key string the constrained prompt returns. -/
def MenuChoice.key : MenuChoice → String
  | .m0 => "0"
  | .m1 => "1"
  | .m2 => "2"
  | .m3 => "3"
  | .m4 => "4"
  | .m5 => "5"

/-- Console displays issued by one iteration of `VideoDownloader.run`'s loop:
the platform guide, the empty-URL error notice, the mismatch warning plus its
"Continue anyway?" confirmation, the call into `download_video` (recording its
arguments), the displays `download_video` itself makes, the statistics table,
and the farewell panel. -/
inductive LoopEvent where
  | guide (platform : PlatformConfig)
  | emptyUrlNotice
  | mismatchPrompt (detectedName selectedName : String)
  | dlCall (url : String) (platform : PlatformConfig)
  | ui (e : UIEvent)
  | statsTable (titles : List String)
  | farewell
deriving DecidableEq

/-- Where the loop goes after one iteration: round the `while True` again
(menu) or past the `break` (program exit). -/
inductive NextState where
  | menu | exited
deriving DecidableEq

/-- The interactive inputs consumed by one loop iteration: the menu choice,
the raw URL entry, the answer to the mismatch "Continue anyway?" prompt, the
extractor/confirm behaviour inside `download_video`, and the answer to the
"Download another video?" prompt.  Prompts on paths not taken are simply not
consulted. -/
structure LoopInput where
  choice : MenuChoice
  url : String
  mismatchConfirm : Bool
  env : DLEnv
  continueConfirm : Bool
deriving DecidableEq

/-- Result of one iteration of the `run` loop. -/
structure IterResult where
  next : NextState
  history : List String
  events : List LoopEvent
deriving DecidableEq

/-- `VideoDownloader.show_statistics()`: renders one statistics table, unless
the history is empty, in which case it returns without rendering. -/
def show_statistics (hist : List String) : List LoopEvent :=
  if hist.isEmpty then [] else [LoopEvent.statsTable hist]

/-- The exit path of `run` (reached from choice `'0'` or from declining the
continue prompt): `if self.download_history: self.show_statistics()`, then the
farewell panel, then `break`. -/
def exitEvents (hist : List String) : List LoopEvent :=
  (if hist.isEmpty then [] else show_statistics hist) ++ [LoopEvent.farewell]

/-- The tail of a loop iteration once the URL checks have passed: the
`download_video` call followed by the "Download another video?" prompt;
declining shows statistics (if any) and the farewell, then breaks. -/
def proceedDownload (hist : List String) (inp : LoopInput)
    (platform : PlatformConfig) (url : String)
    (mismEvents : List LoopEvent) : IterResult :=
  let r := download_video inp.env hist
  let events := [LoopEvent.guide platform] ++ mismEvents ++
    [LoopEvent.dlCall url platform] ++ r.events.map LoopEvent.ui
  if inp.continueConfirm then
    { next := .menu, history := r.download_history, events := events }
  else
    { next := .exited, history := r.download_history
      events := events ++ exitEvents r.download_history }

/-- One iteration of the `while True` loop in `VideoDownloader.run`.  Choice
`'0'` (the one key the catalog lookup misses) takes the statistics/farewell
exit path.  Otherwise the selected platform's guide is shown and a URL is read
and stripped; an empty URL prints the error notice and `continue`s.  Then
`detect_platform` runs: a detected platform with a different name triggers the
warning and the "Continue anyway?" confirmation, and declining `continue`s.
Otherwise `download_video` runs and the continue prompt decides between
another round and the exit path. -/
def runIteration (hist : List String) (inp : LoopInput) : IterResult :=
  match platformFor inp.choice.key with
  | none =>
    { next := .exited, history := hist, events := exitEvents hist }
  | some platform =>
    let url := stripStr inp.url
    if url.isEmpty then
      { next := .menu, history := hist
        events := [.guide platform, .emptyUrlNotice] }
    else
      match Platform.detect_platform url with
      | some detected =>
        if detected.name != platform.name then
          if inp.mismatchConfirm then
            proceedDownload hist inp platform url
              [.mismatchPrompt detected.name platform.name]
          else
            { next := .menu, history := hist
              events := [.guide platform,
                         .mismatchPrompt detected.name platform.name] }
        else
          proceedDownload hist inp platform url []
      | none =>
        proceedDownload hist inp platform url []

/-- Sanity: the selection key missing from the catalog is exactly `'0'`, so the
`'0'`-test in `run` and the catalog lookup in this model agree. -/
theorem platformFor_key_none_iff (c : MenuChoice) :
    platformFor c.key = none ↔ c = MenuChoice.m0 := by
  cases c <;> simp [MenuChoice.key, platformFor, Platform.get_all]

/-- Sample metadata for concrete instantiations. -/
def mdSample : Metadata :=
  { title := some "Sample Video", uploader := some "someone"
    duration := some 125, view_count := some 1234567
    filesize := some 10485760, filesize_approx := none
    upload_date := some "20240101" }

/-- A run of the collaborators in which probe, confirmation and fetch all
succeed. -/
def envSuccess : DLEnv :=
  { probe := .ok mdSample, confirm := true, fetch := .ok ()
    filename := "Sample Video.mp4" }

/-- A run of the collaborators in which the metadata probe raises. -/
def envProbeErr : DLEnv :=
  { probe := .err "Unsupported URL", confirm := true, fetch := .ok ()
    filename := "" }

/-- A run of the collaborators in which the probe succeeds and the user
declines the confirmation. -/
def envDeclined : DLEnv :=
  { probe := .ok mdSample, confirm := false, fetch := .ok ()
    filename := "" }

/-- C1: the session history only grows (the old history stays as an untouched
front segment), a `download_video` call returns success exactly when the
probe, the confirmation and the fetch all succeed, and in that case the
history grows by exactly one entry, namely the metadata's title with fallback
`"Unknown"`; on every other outcome the history is unchanged. -/
theorem C1_session_history (env : DLEnv) (hist : List String) :
    ((download_video env hist).success = true ↔
      (∃ info, env.probe = ExtResult.ok info) ∧ env.confirm = true ∧
        env.fetch = ExtResult.ok ()) ∧
    (∀ info, env.probe = ExtResult.ok info → env.confirm = true →
      env.fetch = ExtResult.ok () →
      (download_video env hist).download_history
          = hist ++ [info.title.getD "Unknown"] ∧
      (download_video env hist).download_history.length = hist.length + 1 ∧
      (download_video env hist).download_history.getLast?
          = some (info.title.getD "Unknown")) ∧
    ((download_video env hist).success = false →
      (download_video env hist).download_history = hist) ∧
    (download_video env hist).download_history.take hist.length = hist := by
  obtain ⟨probe, confirm, fetch, filename⟩ := env
  cases probe with
  | err e => simp [download_video]
  | ok info =>
    cases confirm with
    | false => simp [download_video]
    | true =>
      cases fetch with
      | err e => simp [download_video]
      | ok u =>
        cases u
        simp [download_video, List.take_left]

/-- Witness for C1 at a concrete successful environment. -/
theorem C1_session_history_witness :
    (download_video envSuccess ["earlier title"]).download_history
      = ["earlier title", "Sample Video"] :=
  ((C1_session_history envSuccess ["earlier title"]).2.1 mdSample rfl rfl rfl).1

/-- C2: when the metadata probe raises, `download_video` returns `False`, the
history is unchanged, the console output is exactly one error panel (so the
error view is displayed exactly once), the fetch is never invoked, and — the
model being a total function whose error branch yields this result — the
exception does not propagate past `download_video`. -/
theorem C2_probe_error (env : DLEnv) (hist : List String) (e : String)
    (h : env.probe = ExtResult.err e) :
    (download_video env hist).success = false ∧
    (download_video env hist).download_history = hist ∧
    (download_video env hist).events = [UIEvent.errorMsg e] ∧
    (download_video env hist).events.count (UIEvent.errorMsg e) = 1 ∧
    (download_video env hist).fetched = false := by
  simp [download_video, h]

/-- Witness for C2 at a concrete probe-failure environment. -/
theorem C2_probe_error_witness :
    (download_video envProbeErr []).success = false ∧
    (download_video envProbeErr []).download_history = [] ∧
    (download_video envProbeErr []).events
        = [UIEvent.errorMsg "Unsupported URL"] ∧
    (download_video envProbeErr []).events.count
        (UIEvent.errorMsg "Unsupported URL") = 1 ∧
    (download_video envProbeErr []).fetched = false :=
  C2_probe_error envProbeErr [] "Unsupported URL" rfl

/-- C4: when the probe succeeds but the user declines the confirmation,
`download_video` returns `False`, shows the metadata table followed by the
distinct cancellation notice (and no error panel), never invokes the fetch,
and leaves the history unchanged. -/
theorem C4_declined (env : DLEnv) (hist : List String) (info : Metadata)
    (hp : env.probe = ExtResult.ok info) (hc : env.confirm = false) :
    (download_video env hist).success = false ∧
    (download_video env hist).download_history = hist ∧
    (download_video env hist).events
        = [UIEvent.videoInfo info, UIEvent.cancelNotice] ∧
    (download_video env hist).fetched = false ∧
    ∀ m, UIEvent.errorMsg m ∉ (download_video env hist).events := by
  simp [download_video, hp, hc]

/-- Witness for C4 at a concrete declined-confirmation environment. -/
theorem C4_declined_witness :
    (download_video envDeclined ["kept"]).success = false ∧
    (download_video envDeclined ["kept"]).download_history = ["kept"] ∧
    (download_video envDeclined ["kept"]).events
        = [UIEvent.videoInfo mdSample, UIEvent.cancelNotice] ∧
    (download_video envDeclined ["kept"]).fetched = false ∧
    ∀ m, UIEvent.errorMsg m ∉ (download_video envDeclined ["kept"]).events :=
  C4_declined envDeclined ["kept"] mdSample rfl rfl

/-- C3: `detect_platform` returns the first catalog descriptor (in insertion
order) one of whose domains is contained case-insensitively in the URL, `none`
when no descriptor's domain matches, and on the four concrete URLs of the
claim it returns the YouTube, YouTube, Instagram descriptors and `none`
respectively. -/
theorem C3_detect_platform :
    Platform.detect_platform "https://youtu.be/dQw4w9WgXcQ"
        = some Platform.YOUTUBE ∧
    Platform.detect_platform "https://www.youtube.com/watch?v=abc"
        = some Platform.YOUTUBE ∧
    Platform.detect_platform "https://www.instagram.com/reel/XYZ/"
        = some Platform.INSTAGRAM ∧
    Platform.detect_platform "https://example.com/video" = none ∧
    (∀ url, Platform.detect_platform url = none ↔
      ∀ p ∈ catalogDescriptors, platformMatches p url = false) ∧
    (∀ url p, Platform.detect_platform url = some p →
      platformMatches p url = true ∧
      ∃ pre post, catalogDescriptors = pre ++ p :: post ∧
        ∀ q ∈ pre, platformMatches q url = false) := by
  refine ⟨by decide, by decide, by decide, by decide, ?_, ?_⟩
  · intro url
    simp [Platform.detect_platform, List.find?_eq_none]
  · intro url p h
    rw [Platform.detect_platform, List.find?_eq_some] at h
    obtain ⟨hp, pre, post, hcat, hpre⟩ := h
    exact ⟨hp, pre, post, hcat, fun q hq => by simpa using hpre q hq⟩

/-- C7: in the `show_video_info` table, 125 seconds renders as `"2m 5s"`, a
zero duration renders as the `"N/A"` marker, and 10,485,760 bytes render as
`"10.00 MB"`; the sample metadata row list shows these values in place. -/
theorem C7_info_formatting :
    durationStr (some 125) = "2m 5s" ∧
    durationStr (some 0) = "N/A" ∧
    filesizeStr (some 10485760) none = "10.00 MB" ∧
    show_video_info_rows mdSample =
      [("📝 Title", "Sample Video"),
       ("👤 Uploader", "someone"),
       ("⏱️  Duration", "2m 5s"),
       ("👁️  Views", "1,234,567"),
       ("💾 File Size", "10.00 MB"),
       ("📅 Upload Date", "20240101")] := by
  refine ⟨by decide, by decide, by decide, by decide⟩

/-- The claim's per-descriptor condition for C10, as a decidable check:
non-empty domain list, and every example URL contains one of the descriptor's
own domains as a substring. -/
def descriptorOk (p : PlatformConfig) : Bool :=
  (!p.domains.isEmpty) &&
    p.examples.all fun e => p.domains.any fun d => strContains e d

/-- C10: every platform key `'1'`..`'5'` is mapped by the catalog to a
descriptor with a non-empty domain list each of whose example URLs contains at
least one of the same descriptor's domains as a substring. -/
theorem C10_catalog_examples (k : String) (hk : k ∈ ["1", "2", "3", "4", "5"]) :
    ∃ p, platformFor k = some p ∧ p.domains ≠ [] ∧
      ∀ e ∈ p.examples, ∃ d ∈ p.domains, strContains e d = true := by
  have hok : (platformFor k).map descriptorOk = some true := by
    simp only [List.mem_cons, List.not_mem_nil, or_false] at hk
    rcases hk with rfl | rfl | rfl | rfl | rfl <;> decide
  match hp : platformFor k with
  | none => rw [hp] at hok; exact Option.noConfusion hok
  | some p =>
    rw [hp] at hok
    have hok2 : descriptorOk p = true := Option.some.inj hok
    unfold descriptorOk at hok2
    have h1 := (Bool.and_eq_true _ _).mp hok2
    refine ⟨p, rfl, ?_, ?_⟩
    · intro hnil
      have hne := h1.1
      rw [hnil] at hne
      exact Bool.noConfusion hne
    · intro e he
      have hall := (List.all_eq_true.mp h1.2) e he
      obtain ⟨d, hd, hsd⟩ := List.any_eq_true.mp hall
      exact ⟨d, hd, hsd⟩

/-- Witness for C10 at the concrete key `"1"`. -/
theorem C10_catalog_examples_witness :
    ∃ p, platformFor "1" = some p ∧ p.domains ≠ [] ∧
      ∀ e ∈ p.examples, ∃ d ∈ p.domains, strContains e d = true :=
  C10_catalog_examples "1" (by decide)

/-- Once the URL checks pass, the iteration records the `download_video`
call (with exactly the stripped URL and the selected platform). -/
theorem dlCall_mem_proceedDownload (hist : List String) (inp : LoopInput)
    (platform : PlatformConfig) (url : String) (mismEvents : List LoopEvent) :
    LoopEvent.dlCall url platform
      ∈ (proceedDownload hist inp platform url mismEvents).events := by
  cases h : inp.continueConfirm <;> simp [proceedDownload, h]

/-- A mismatch prompt shows up in the proceed-to-download tail only if it was
already among the pre-download events passed in. -/
theorem mismatchPrompt_mem_proceedDownload (hist : List String)
    (inp : LoopInput) (platform : PlatformConfig) (url : String)
    (mismEvents : List LoopEvent) (a b : String) :
    LoopEvent.mismatchPrompt a b
        ∈ (proceedDownload hist inp platform url mismEvents).events ↔
      LoopEvent.mismatchPrompt a b ∈ mismEvents := by
  cases h : inp.continueConfirm
  · simp only [proceedDownload, h, exitEvents, show_statistics]
    split <;> simp
  · simp [proceedDownload, h]

/-- C5: in a loop iteration with a selected platform and a non-empty stripped
URL, whenever detection finds a platform whose name differs from the selected
one the "Continue anyway?" confirmation is issued; declining it returns to the
menu without invoking `download_video`, while accepting it (or detection not
differing) proceeds to invoke `download_video`. -/
theorem C5_mismatch_confirmation (hist : List String) (inp : LoopInput)
    (platform : PlatformConfig)
    (hp : platformFor inp.choice.key = some platform)
    (hu : (stripStr inp.url).isEmpty = false) :
    (∀ d, Platform.detect_platform (stripStr inp.url) = some d →
      d.name ≠ platform.name →
      LoopEvent.mismatchPrompt d.name platform.name
          ∈ (runIteration hist inp).events ∧
      (inp.mismatchConfirm = false →
        (runIteration hist inp).next = NextState.menu ∧
        (runIteration hist inp).history = hist ∧
        ∀ u q, LoopEvent.dlCall u q ∉ (runIteration hist inp).events) ∧
      (inp.mismatchConfirm = true →
        LoopEvent.dlCall (stripStr inp.url) platform
          ∈ (runIteration hist inp).events)) ∧
    ((∀ d, Platform.detect_platform (stripStr inp.url) = some d →
        d.name = platform.name) →
      LoopEvent.dlCall (stripStr inp.url) platform
        ∈ (runIteration hist inp).events) := by
  constructor
  · intro d hd hne
    have hbne : (d.name != platform.name) = true := by
      simpa using hne
    refine ⟨?_, ?_, ?_⟩
    · cases hm : inp.mismatchConfirm <;>
        simp [runIteration, hp, hu, hd, hbne, hm,
          mismatchPrompt_mem_proceedDownload]
    · intro hm
      refine ⟨?_, ?_, ?_⟩ <;>
        simp [runIteration, hp, hu, hd, hbne, hm]
    · intro hm
      simp [runIteration, hp, hu, hd, hbne, hm, dlCall_mem_proceedDownload]
  · intro hsame
    match hd : Platform.detect_platform (stripStr inp.url) with
    | none =>
      simp [runIteration, hp, hu, hd, dlCall_mem_proceedDownload]
    | some d =>
      have hbe : (d.name != platform.name) = false := by
        simp [hsame d hd]
      simp [runIteration, hp, hu, hd, hbe, dlCall_mem_proceedDownload]

/-- Concrete iteration input: YouTube selected, an Instagram URL entered,
mismatch confirmation declined. -/
def inpMismatchDecline : LoopInput :=
  { choice := .m1, url := "https://www.instagram.com/reel/XYZ/"
    mismatchConfirm := false, env := envSuccess, continueConfirm := true }

/-- Witness for C5: Instagram URL under a YouTube selection, declined. -/
theorem C5_mismatch_confirmation_witness :
    LoopEvent.mismatchPrompt "Instagram" "YouTube"
        ∈ (runIteration [] inpMismatchDecline).events ∧
    (runIteration [] inpMismatchDecline).next = NextState.menu ∧
    (runIteration [] inpMismatchDecline).history = [] ∧
    ∀ u q, LoopEvent.dlCall u q ∉ (runIteration [] inpMismatchDecline).events := by
  have h := (C5_mismatch_confirmation [] inpMismatchDecline Platform.YOUTUBE
      rfl (by decide)).1 Platform.INSTAGRAM (by decide) (by decide)
  exact ⟨h.1, h.2.1 rfl⟩

/-- C6: in an iteration with a selected platform and a non-empty stripped URL,
when detection returns `none` no mismatch confirmation is issued at all and
`download_video` is invoked with the user-selected platform; conversely, a
mismatch confirmation is issued only when detection found a platform whose
name differs from the selected one. -/
theorem C6_detection_none (hist : List String) (inp : LoopInput)
    (platform : PlatformConfig)
    (hp : platformFor inp.choice.key = some platform)
    (hu : (stripStr inp.url).isEmpty = false) :
    (Platform.detect_platform (stripStr inp.url) = none →
      (∀ a b, LoopEvent.mismatchPrompt a b ∉ (runIteration hist inp).events) ∧
      LoopEvent.dlCall (stripStr inp.url) platform
        ∈ (runIteration hist inp).events) ∧
    (∀ a b, LoopEvent.mismatchPrompt a b ∈ (runIteration hist inp).events →
      ∃ d, Platform.detect_platform (stripStr inp.url) = some d ∧
        d.name ≠ platform.name ∧ a = d.name ∧ b = platform.name) := by
  constructor
  · intro hd
    constructor
    · intro a b
      simp [runIteration, hp, hu, hd, mismatchPrompt_mem_proceedDownload]
    · simp [runIteration, hp, hu, hd, dlCall_mem_proceedDownload]
  · intro a b hmem
    match hd : Platform.detect_platform (stripStr inp.url) with
    | none =>
      rw [runIteration] at hmem
      simp [hp, hu, hd, mismatchPrompt_mem_proceedDownload] at hmem
    | some d =>
      by_cases hne : d.name = platform.name
      · have hbe : (d.name != platform.name) = false := by simp [hne]
        rw [runIteration] at hmem
        simp [hp, hu, hd, hbe, mismatchPrompt_mem_proceedDownload] at hmem
      · have hbne : (d.name != platform.name) = true := by simpa using hne
        refine ⟨d, rfl, hne, ?_⟩
        cases hm : inp.mismatchConfirm <;>
          rw [runIteration] at hmem <;>
          simp [hp, hu, hd, hbne, hm,
            mismatchPrompt_mem_proceedDownload] at hmem <;>
          exact ⟨hmem.1, hmem.2⟩

/-- Concrete iteration input: YouTube selected, a URL no catalog domain
matches. -/
def inpNoDetect : LoopInput :=
  { choice := .m1, url := "https://example.com/video"
    mismatchConfirm := false, env := envSuccess, continueConfirm := true }

/-- Witness for C6: an unrecognized URL under a YouTube selection. -/
theorem C6_detection_none_witness :
    (∀ a b, LoopEvent.mismatchPrompt a b ∉ (runIteration [] inpNoDetect).events) ∧
    LoopEvent.dlCall "https://example.com/video" Platform.YOUTUBE
      ∈ (runIteration [] inpNoDetect).events :=
  (C6_detection_none [] inpNoDetect Platform.YOUTUBE rfl (by decide)).1
    (by decide)

/-- C8: in an iteration with a selected platform whose URL strips to the empty
string, the loop shows the error notice, returns to the menu with the history
unchanged, and never invokes `download_video`. -/
theorem C8_empty_url (hist : List String) (inp : LoopInput)
    (platform : PlatformConfig)
    (hp : platformFor inp.choice.key = some platform)
    (hu : stripStr inp.url = "") :
    (runIteration hist inp).next = NextState.menu ∧
    (runIteration hist inp).history = hist ∧
    (runIteration hist inp).events
        = [LoopEvent.guide platform, LoopEvent.emptyUrlNotice] ∧
    ∀ u q, LoopEvent.dlCall u q ∉ (runIteration hist inp).events := by
  have hemp : ("".isEmpty : Bool) = true := rfl
  refine ⟨?_, ?_, ?_, ?_⟩ <;> simp [runIteration, hp, hu, hemp]

/-- Concrete iteration input: a platform selected, blank URL entered. -/
def inpEmptyUrl : LoopInput :=
  { choice := .m2, url := "   ", mismatchConfirm := false
    env := envSuccess, continueConfirm := true }

/-- Witness for C8 at a blank URL entry. -/
theorem C8_empty_url_witness :
    (runIteration ["t"] inpEmptyUrl).next = NextState.menu ∧
    (runIteration ["t"] inpEmptyUrl).history = ["t"] ∧
    (runIteration ["t"] inpEmptyUrl).events
        = [LoopEvent.guide Platform.INSTAGRAM, LoopEvent.emptyUrlNotice] ∧
    ∀ u q, LoopEvent.dlCall u q ∉ (runIteration ["t"] inpEmptyUrl).events :=
  C8_empty_url ["t"] inpEmptyUrl Platform.INSTAGRAM rfl (by decide)

/-- C9: choosing `'0'` exits the loop; with a non-empty history the events are
exactly one statistics table followed by the farewell, and with an empty
history they are the farewell alone (zero statistics renderings). -/
theorem C9_exit_statistics (hist : List String) (inp : LoopInput)
    (hc : inp.choice = MenuChoice.m0) :
    (runIteration hist inp).next = NextState.exited ∧
    (runIteration hist inp).history = hist ∧
    (hist = [] → (runIteration hist inp).events = [LoopEvent.farewell]) ∧
    (hist ≠ [] →
      (runIteration hist inp).events
        = [LoopEvent.statsTable hist, LoopEvent.farewell]) := by
  have h0 : platformFor (MenuChoice.key inp.choice) = none := by
    rw [hc]; rfl
  refine ⟨?_, ?_, ?_, ?_⟩
  · simp [runIteration, h0]
  · simp [runIteration, h0]
  · intro h
    subst h
    simp [runIteration, h0, exitEvents, show_statistics]
  · intro h
    have hne : hist.isEmpty = false := by
      cases hist with
      | nil => exact absurd rfl h
      | cons x xs => rfl
    simp [runIteration, h0, exitEvents, show_statistics, hne]

/-- Concrete iteration input: exit chosen from the menu. -/
def inpExit : LoopInput :=
  { choice := .m0, url := "", mismatchConfirm := false
    env := envSuccess, continueConfirm := true }

/-- Witness for C9 with a one-entry history. -/
theorem C9_exit_statistics_witness :
    (runIteration ["Sample Video"] inpExit).next = NextState.exited ∧
    (runIteration ["Sample Video"] inpExit).events
      = [LoopEvent.statsTable ["Sample Video"], LoopEvent.farewell] :=
  ⟨(C9_exit_statistics ["Sample Video"] inpExit rfl).1,
   (C9_exit_statistics ["Sample Video"] inpExit rfl).2.2.2 (by decide)⟩
